import Mathlib

/-!
Verification model of the bazaar_update program (src/main.rs).

Conventions of the shallow embedding:

* Rust i64 values are modelled as Lean Int. Where the Rust arithmetic can
  overflow, the result is reduced with wrap64, the twos-complement wrapping
  of release builds; the division cases that abort in every build profile
  (division by zero, and i64 MIN divided by -1) are modelled as errors.
* Rust f64 values are modelled as exact rationals. The claims under review
  only concern inputs on which the f64 computation is exact, and each such
  theorem carries the corresponding exactness hypothesis. The saturating
  behaviour of the Rust float-to-integer cast is modelled by clamp64.
* Fallible operations return Option or Except; the filesystem directory is
  an explicit argument (absent directory = none, otherwise the list of
  entries in listing order).
* The iteration order of the Rust HashMap is arbitrary; a products mapping
  is modelled as the association list in iteration order.
-/

namespace Bazaar

/-- Twos-complement wrap of an unbounded integer into the signed 64-bit
range, the behaviour of overflowing i64 arithmetic in Rust release builds. -/
def wrap64 (x : Int) : Int :=
  (x + 2 ^ 63) % 2 ^ 64 - 2 ^ 63

/-- Saturation of an unbounded integer to the signed 64-bit range, the
behaviour of the Rust float-to-i64 cast on out-of-range values. -/
def clamp64 (x : Int) : Int :=
  max (-(2 ^ 63)) (min x (2 ^ 63 - 1))

/-- Round a rational to the nearest integer, ties away from zero: the
behaviour of the Rust f64 round function. -/
def rhaz (q : ℚ) : Int :=
  if 0 ≤ q then ⌊q + 1 / 2⌋ else -⌊-q + 1 / 2⌋

/-- The fixed-point type of src/main.rs: a tuple struct around an i64
holding hundredths (scale factor 100). -/
structure FixedPoint where
  raw : Int
deriving DecidableEq, Repr

namespace FixedPoint

/-- Scale factor, 10 to the 2 for 2 decimal places (src/main.rs). -/
def SCALE : Int := 100

/-- Rust FixedPoint::from_float: (value * SCALE as f64).round() as i64.
The f64 product is modelled exactly over the rationals; round is ties away
from zero; the cast saturates at the i64 bounds. -/
def from_float (value : ℚ) : FixedPoint :=
  ⟨clamp64 (rhaz (value * (SCALE : ℚ)))⟩

/-- Rust FixedPoint::from_int: direct construction from raw units. -/
def from_int (value : Int) : FixedPoint :=
  ⟨value⟩

/-- Rust FixedPoint::to_float: raw value divided by the scale, in f64.
Modelled exactly over the rationals. -/
def to_float (x : FixedPoint) : ℚ :=
  (x.raw : ℚ) / (SCALE : ℚ)

/-- Rust impl Add for FixedPoint: raw addition on i64. -/
def add (a b : FixedPoint) : FixedPoint :=
  ⟨wrap64 (a.raw + b.raw)⟩

/-- Rust impl Sub for FixedPoint: raw subtraction on i64. -/
def sub (a b : FixedPoint) : FixedPoint :=
  ⟨wrap64 (a.raw - b.raw)⟩

/-- Rust impl Mul for FixedPoint: (self.0 * other.0) / SCALE on i64, with
truncating division. The i64 product wraps on overflow; the division by
100 cannot overflow. -/
def mul (a b : FixedPoint) : FixedPoint :=
  ⟨(wrap64 (a.raw * b.raw)).tdiv SCALE⟩

/-- Failure conditions of the Rust division operator on i64: both abort
the program in every build profile. -/
inductive DivError where
  | divisionByZero : DivError
  | overflow : DivError
deriving DecidableEq, Repr

/-- Rust impl Div for FixedPoint: (self.0 * SCALE) / other.0 on i64 with
truncating division. Division by a zero divisor aborts (divisionByZero);
dividing i64 MIN by -1 aborts (overflow); the multiplication by SCALE
wraps on overflow in release builds. -/
def div (a b : FixedPoint) : Except DivError FixedPoint :=
  if b.raw = 0 then .error .divisionByZero
  else if wrap64 (a.raw * SCALE) = -(2 ^ 63) ∧ b.raw = -1 then .error .overflow
  else .ok ⟨(wrap64 (a.raw * SCALE)).tdiv b.raw⟩

end FixedPoint

deriving instance DecidableEq for Except

/-- Untyped JSON payloads as produced by serde_json. Numbers written
without a fractional part are held as integers (intNum), other numbers as
rationals standing for the parsed f64 (floatNum). -/
inductive Json where
  | null : Json
  | bool (b : Bool) : Json
  | intNum (i : Int) : Json
  | floatNum (q : ℚ) : Json
  | str (s : String) : Json
  | arr (items : List Json) : Json
  | obj (fields : List (String × Json)) : Json

/-- Serde deserialization of a bool field. -/
def asBool : Json → Option Bool
  | .bool b => some b
  | _ => none

/-- Serde deserialization of a u64 field: an integer number within the
unsigned 64-bit range; floats and out-of-range values are rejected. -/
def asU64 : Json → Option Nat
  | .intNum i => if 0 ≤ i ∧ i < 2 ^ 64 then some i.toNat else none
  | _ => none

/-- Serde deserialization of a u32 field: an integer number within the
unsigned 32-bit range; floats and out-of-range values are rejected. -/
def asU32 : Json → Option Nat
  | .intNum i => if 0 ≤ i ∧ i < 2 ^ 32 then some i.toNat else none
  | _ => none

/-- Serde deserialization of an f64 field: accepts integer and fractional
numbers; the value is modelled exactly as a rational. -/
def asF64 : Json → Option ℚ
  | .intNum i => some (i : ℚ)
  | .floatNum q => some q
  | _ => none

/-- Serde deserialization of a string field. -/
def asStr : Json → Option String
  | .str s => some s
  | _ => none

/-- Serde deserialization of a sequence field. -/
def asArr : Json → Option (List Json)
  | .arr items => some items
  | _ => none

/-- Serde deserialization of a map field (JSON object). -/
def asObj : Json → Option (List (String × Json))
  | .obj fields => some fields
  | _ => none

/-- Derived Serialize for the FixedPoint tuple struct: the raw i64 is
written directly as a JSON integer. -/
def serialize_fixed_point (x : FixedPoint) : Json :=
  .intNum x.raw

/-- Rust deserialize_fixed_point: deserialize the wire value as an f64 and
build the fixed-point value with from_float (which multiplies by 100). -/
def deserialize_fixed_point (j : Json) : Option FixedPoint :=
  (asF64 j).map FixedPoint.from_float

/-- Rust struct Order (one order-book level). -/
structure Order where
  amount : Nat
  pricePerUnit : FixedPoint
  orders : Nat
deriving DecidableEq, Repr

/-- Rust struct QuickStatus. The two price fields stay native f64 in the
source and are modelled as exact rationals. -/
structure QuickStatus where
  productId : String
  sellPrice : ℚ
  sellVolume : Nat
  sellMovingWeek : Nat
  sellOrders : Nat
  buyPrice : ℚ
  buyVolume : Nat
  buyMovingWeek : Nat
  buyOrders : Nat
deriving DecidableEq, Repr

/-- Rust struct Product. -/
structure Product where
  product_id : String
  sell_summary : List Order
  buy_summary : List Order
  quick_status : QuickStatus
deriving DecidableEq, Repr

/-- Rust struct BazaarResponse. The HashMap of products is modelled as the
association list of its entries in iteration order. -/
structure BazaarResponse where
  success : Bool
  lastUpdated : Nat
  products : List (String × Product)
deriving DecidableEq, Repr

/-- Derived serde Deserialize for Order: every declared field is required
and unknown fields are ignored. -/
def parseOrder (j : Json) : Option Order :=
  match j with
  | .obj fields => do
      let amount ← (fields.lookup ("amount")).bind asU64
      let pricePerUnit ← (fields.lookup ("pricePerUnit")).bind deserialize_fixed_point
      let orders ← (fields.lookup ("orders")).bind asU32
      pure ⟨amount, pricePerUnit, orders⟩
  | _ => none

/-- Derived serde Deserialize for QuickStatus: every declared field is
required and unknown fields are ignored. -/
def parseQuickStatus (j : Json) : Option QuickStatus :=
  match j with
  | .obj fields => do
      let productId ← (fields.lookup ("productId")).bind asStr
      let sellPrice ← (fields.lookup ("sellPrice")).bind asF64
      let sellVolume ← (fields.lookup ("sellVolume")).bind asU64
      let sellMovingWeek ← (fields.lookup ("sellMovingWeek")).bind asU64
      let sellOrders ← (fields.lookup ("sellOrders")).bind asU32
      let buyPrice ← (fields.lookup ("buyPrice")).bind asF64
      let buyVolume ← (fields.lookup ("buyVolume")).bind asU64
      let buyMovingWeek ← (fields.lookup ("buyMovingWeek")).bind asU64
      let buyOrders ← (fields.lookup ("buyOrders")).bind asU32
      pure ⟨productId, sellPrice, sellVolume, sellMovingWeek, sellOrders,
            buyPrice, buyVolume, buyMovingWeek, buyOrders⟩
  | _ => none

/-- Derived serde Deserialize for Product: every declared field is
required; the two summaries deserialize every element as an Order. -/
def parseProduct (j : Json) : Option Product :=
  match j with
  | .obj fields => do
      let product_id ← (fields.lookup ("product_id")).bind asStr
      let sellItems ← (fields.lookup ("sell_summary")).bind asArr
      let sell_summary ← sellItems.mapM parseOrder
      let buyItems ← (fields.lookup ("buy_summary")).bind asArr
      let buy_summary ← buyItems.mapM parseOrder
      let quick_status ← (fields.lookup ("quick_status")).bind parseQuickStatus
      pure ⟨product_id, sell_summary, buy_summary, quick_status⟩
  | _ => none

/-- Derived serde Deserialize for BazaarResponse: every declared field is
required; products must be a JSON object and every value in it must
deserialize as a Product. -/
def parseBazaarResponse (j : Json) : Option BazaarResponse :=
  match j with
  | .obj fields => do
      let success ← (fields.lookup ("success")).bind asBool
      let lastUpdated ← (fields.lookup ("lastUpdated")).bind asU64
      let productsJson ← (fields.lookup ("products")).bind asObj
      let products ← productsJson.mapM
        (fun kv => (parseProduct kv.2).map (fun p => (kv.1, p)))
      pure ⟨success, lastUpdated, products⟩
  | _ => none

/-- Decimal digit accumulator: fuel-indexed rendering of a natural number,
most significant digit first, the algorithm of the standard formatter. -/
def decAux : Nat → Nat → List Char → List Char
  | 0, _, acc => acc
  | fuel + 1, n, acc =>
    if n = 0 then acc else decAux fuel (n / 10) (Nat.digitChar (n % 10) :: acc)

/-- Decimal rendering of a natural number, the Rust to_string and the
unpadded {} format directive. -/
def decStr (n : Nat) : String :=
  if n = 0 then ("0") else ⟨decAux (n + 1) n []⟩

/-- Zero left-padding to a given width, the {:0w} format directive and the
chrono zero-padded date directives. -/
def pad (width : Nat) (s : String) : String :=
  ⟨List.replicate (width - s.length) ('0') ++ s.data⟩

/-- A local wall-clock date and time, the value returned by Local::now()
as observed through the chrono accessors used by the source. -/
structure LocalTime where
  year : Nat
  month : Nat
  day : Nat
  hour : Nat
  minute : Nat
  second : Nat
deriving DecidableEq, Repr

/-- Chrono format %Y%m%d: four-digit zero-padded year, two-digit
zero-padded month and day. -/
def date_str (t : LocalTime) : String :=
  pad 4 (decStr t.year) ++ pad 2 (decStr t.month) ++ pad 2 (decStr t.day)

/-- Seconds elapsed since local midnight, as computed in get_and_dump:
hour * 3600 + minute * 60 + second. -/
def seconds_from_midnight (t : LocalTime) : Nat :=
  t.hour * 3600 + t.minute * 60 + t.second

/-- The snapshot path computed in get_and_dump:
format raw/{}{:05}.json with the date string and the seconds count. -/
def snapshot_filename (t : LocalTime) : String :=
  "raw/" ++ date_str t ++ pad 5 (decStr (seconds_from_midnight t)) ++ ".json"

/-- One iteration of the newest_file loop: take the entry when no current
newest exists or when its name compares strictly greater. -/
def newest_step (newest : Option String) (name : String) : Option String :=
  match newest with
  | none => some name
  | some current => if current < name then some name else some current

/-- Rust newest_file restricted to its pure content: fold the directory
listing, keeping the lexicographically greatest file name. -/
def newest_file (entries : List String) : Option String :=
  entries.foldl newest_step none

/-- Error kinds of the snapshot-store read path. -/
inductive StoreError where
  | notFound : StoreError
  | schemaError : StoreError
  | ioError : StoreError
deriving DecidableEq, Repr

/-- The load phase of generate_csv: pick the newest snapshot file, read
its content and parse it. The directory is none when absent, otherwise
the listing with each file content; a read failure is an ioError and a
parse failure a schemaError. -/
def loadNewest (dir : Option (List (String × Json))) : Except StoreError BazaarResponse :=
  match dir with
  | none => .error .notFound
  | some entries =>
    match newest_file (entries.map Prod.fst) with
    | none => .error .notFound
    | some name =>
      match entries.find? (fun e => e.1 == name) with
      | none => .error .ioError
      | some entry =>
        match parseBazaarResponse entry.2 with
        | none => .error .schemaError
        | some response => .ok response

/-- First CSV record written by generate_csv. -/
def metaRow (response : BazaarResponse) : List String :=
  ["last_updated", decStr response.lastUpdated, "", "", "", "", ""]

/-- Second CSV record written by generate_csv. -/
def headerRow : List String :=
  ["product_id", "sell_price", "sell_volume", "buy_price", "buy_volume",
   "sell_orders", "buy_orders"]

/-- One per-product CSV record of generate_csv. The parameter fts is the
host f64-to-string conversion applied to the two native float prices. -/
def productRow (fts : ℚ → String) (product : Product) : List String :=
  [product.product_id,
   fts product.quick_status.sellPrice,
   decStr product.quick_status.sellVolume,
   fts product.quick_status.buyPrice,
   decStr product.quick_status.buyVolume,
   decStr product.quick_status.sellOrders,
   decStr product.quick_status.buyOrders]

/-- The export phase of generate_csv: the two fixed records followed by
one record per product, written in iteration order. -/
def generate_csv (fts : ℚ → String) (response : BazaarResponse) : List (List String) :=
  response.products.foldl (fun rows entry => rows ++ [productRow fts entry.2])
    [metaRow response, headerRow]

/-- Sample quick status from the end-to-end example of the specification. -/
def sampleQuickStatus : QuickStatus :=
  ⟨"INK_SAC", 21 / 5, 100, 0, 2, 31 / 10, 50, 0, 1⟩

/-- Sample product from the end-to-end example of the specification. -/
def sampleProduct : Product :=
  ⟨"INK_SAC", [], [], sampleQuickStatus⟩

/-- Sample response from the end-to-end example of the specification. -/
def sampleResponse : BazaarResponse :=
  ⟨true, 1700000000000, [("INK_SAC", sampleProduct)]⟩

/-- A concrete float-to-string conversion for the sample values. -/
def sampleFts : ℚ → String :=
  fun q => if q = 21 / 5 then ("4.2") else if q = 31 / 10 then ("3.1") else ("")

/-- Sample wire payload for one order level. -/
def sampleOrderJson : Json :=
  .obj [("amount", .intNum 5), ("pricePerUnit", .floatNum (21 / 10)), ("orders", .intNum 2)]

/-! Helper lemmas about the machine-integer and rounding models. -/

theorem wrap64_eq_self {x : Int} (h1 : -(2 ^ 63) ≤ x) (h2 : x ≤ 2 ^ 63 - 1) :
    wrap64 x = x := by
  have e63 : (2 : Int) ^ 63 = 9223372036854775808 := by norm_num
  have e64 : (2 : Int) ^ 64 = 18446744073709551616 := by norm_num
  unfold wrap64
  rw [e63, e64]
  rw [e63] at h1 h2
  omega

theorem clamp64_eq_self {x : Int} (h1 : -(2 ^ 63) ≤ x) (h2 : x ≤ 2 ^ 63 - 1) :
    clamp64 x = x := by
  have e63 : (2 : Int) ^ 63 = 9223372036854775808 := by norm_num
  unfold clamp64
  rw [e63]
  rw [e63] at h1 h2
  omega

theorem floor_intCast_add_half (m : Int) : ⌊(m : ℚ) + 1 / 2⌋ = m := by
  rw [add_comm, Int.floor_add_int]
  norm_num

theorem rhaz_intCast (n : Int) : rhaz ((n : ℚ)) = n := by
  unfold rhaz
  by_cases h : (0 : ℚ) ≤ (n : ℚ)
  · rw [if_pos h, floor_intCast_add_half]
  · rw [if_neg h]
    rw [show -(n : ℚ) = ((-n : Int) : ℚ) by push_cast; ring]
    rw [floor_intCast_add_half]
    ring

/-- C7: for all decimal values whose raw sum (respectively difference)
fits the signed 64-bit range, add and sub act exactly on raw units, with
no rounding or precision loss. -/
theorem add_sub_raw_exact :
    (∀ a b : FixedPoint, -(2 ^ 63) ≤ a.raw + b.raw → a.raw + b.raw ≤ 2 ^ 63 - 1 →
      (a.add b).raw = a.raw + b.raw) ∧
    (∀ a b : FixedPoint, -(2 ^ 63) ≤ a.raw - b.raw → a.raw - b.raw ≤ 2 ^ 63 - 1 →
      (a.sub b).raw = a.raw - b.raw) := by
  constructor <;> intro a b h1 h2
  · show wrap64 (a.raw + b.raw) = a.raw + b.raw
    exact wrap64_eq_self h1 h2
  · show wrap64 (a.raw - b.raw) = a.raw - b.raw
    exact wrap64_eq_self h1 h2

/-- Witness for C7 at concrete inputs. -/
theorem add_sub_raw_exact_witness :
    ((FixedPoint.from_int 120).add (FixedPoint.from_int 205)).raw =
      (FixedPoint.from_int 120).raw + (FixedPoint.from_int 205).raw ∧
    ((FixedPoint.from_int 120).sub (FixedPoint.from_int 205)).raw =
      (FixedPoint.from_int 120).raw - (FixedPoint.from_int 205).raw :=
  ⟨add_sub_raw_exact.1 _ _ (by decide) (by decide),
   add_sub_raw_exact.2 _ _ (by decide) (by decide)⟩

/-- C6: when the raw product fits the signed 64-bit range, mul returns the
truncating (toward-zero) division of the raw product by 100; in
particular 1.00 times 1.00 equals 1.00. -/
theorem mul_raw_tdiv :
    (∀ a b : FixedPoint, -(2 ^ 63) ≤ a.raw * b.raw → a.raw * b.raw ≤ 2 ^ 63 - 1 →
      (a.mul b).raw = (a.raw * b.raw).tdiv 100) ∧
    ((FixedPoint.from_int 100).mul (FixedPoint.from_int 100)).raw = 100 := by
  constructor
  · intro a b h1 h2
    show (wrap64 (a.raw * b.raw)).tdiv FixedPoint.SCALE = (a.raw * b.raw).tdiv 100
    rw [wrap64_eq_self h1 h2]
    rfl
  · decide

/-- Witness for C6 at concrete inputs. -/
theorem mul_raw_tdiv_witness :
    ((FixedPoint.from_int 250).mul (FixedPoint.from_int 33)).raw =
      ((FixedPoint.from_int 250).raw * (FixedPoint.from_int 33).raw).tdiv 100 :=
  mul_raw_tdiv.1 _ _ (by decide) (by decide)

/-- C5 counterexample: with a dividend whose raw value scaled by 100
overflows the signed 64-bit range, div does not return the truncating
division of raw(a) * 100 by raw(b): the scaled dividend wraps first. -/
theorem div_claim_cex :
    (FixedPoint.from_int (2 ^ 57)).div (FixedPoint.from_int 1) ≠
      .ok ⟨((FixedPoint.from_int (2 ^ 57)).raw * 100).tdiv (FixedPoint.from_int 1).raw⟩ := by
  decide

/-- C5 (amended): division by the zero value fails with divisionByZero
for every dividend, and when the divisor is nonzero and the scaled
dividend raw(a) * 100 fits the signed 64-bit range, div returns the
truncating integer division of raw(a) * 100 by raw(b). -/
theorem div_raw_spec :
    (∀ a : FixedPoint, a.div (FixedPoint.from_int 0) = .error .divisionByZero) ∧
    (∀ a b : FixedPoint, b.raw ≠ 0 →
      -(2 ^ 63) ≤ a.raw * 100 → a.raw * 100 ≤ 2 ^ 63 - 1 →
      a.div b = .ok ⟨(a.raw * 100).tdiv b.raw⟩) := by
  constructor
  · intro a
    rfl
  · intro a b hb h1 h2
    have hw : wrap64 (a.raw * FixedPoint.SCALE) = a.raw * 100 := by
      show wrap64 (a.raw * 100) = a.raw * 100
      exact wrap64_eq_self h1 h2
    unfold FixedPoint.div
    rw [if_neg hb, hw, if_neg ?hne]
    case hne =>
      rintro ⟨hc, -⟩
      have e63 : (2 : Int) ^ 63 = 9223372036854775808 := by norm_num
      rw [e63] at hc
      omega

/-- Witness for the amended C5 at concrete inputs. -/
theorem div_raw_spec_witness :
    (FixedPoint.from_int 425).div (FixedPoint.from_int 2) =
      .ok ⟨((FixedPoint.from_int 425).raw * 100).tdiv (FixedPoint.from_int 2).raw⟩ :=
  div_raw_spec.2 _ _ (by decide) (by decide) (by decide)

/-- C8 counterexample: at an exactly representable large float input the
claimed stored value round(f * 100) exceeds the i64 range, the Rust cast
saturates, and the stored raw units differ from round(f * 100). -/
theorem from_float_claim_cex :
    (FixedPoint.from_float ((2 : ℚ) ^ 60)).raw ≠ rhaz ((2 : ℚ) ^ 60 * 100) := by
  have h1 : rhaz ((2 : ℚ) ^ 60 * ((FixedPoint.SCALE : ℚ))) = 115292150460684697600 := by
    rw [show ((2 : ℚ) ^ 60 * ((FixedPoint.SCALE : ℚ))) =
        ((115292150460684697600 : Int) : ℚ) by norm_num [FixedPoint.SCALE]]
    exact rhaz_intCast _
  have h2 : rhaz ((2 : ℚ) ^ 60 * 100) = 115292150460684697600 := by
    rw [show ((2 : ℚ) ^ 60 * (100 : ℚ)) = ((115292150460684697600 : Int) : ℚ) by norm_num]
    exact rhaz_intCast _
  show clamp64 (rhaz ((2 : ℚ) ^ 60 * ((FixedPoint.SCALE : ℚ)))) ≠ rhaz ((2 : ℚ) ^ 60 * 100)
  rw [h1, h2]
  decide

/-- C8 (amended): whenever round(f * 100) fits the signed 64-bit range,
from_float stores round(f * 100) as the raw units and to_float then
returns round(f * 100) / 100 exactly, in the exact-rational model of f64. -/
theorem from_float_round_spec (f : ℚ)
    (h1 : -(2 ^ 63) ≤ rhaz (f * 100)) (h2 : rhaz (f * 100) ≤ 2 ^ 63 - 1) :
    (FixedPoint.from_float f).raw = rhaz (f * 100) ∧
    (FixedPoint.from_float f).to_float = ((rhaz (f * 100) : Int) : ℚ) / 100 := by
  have hs : ((FixedPoint.SCALE : ℚ)) = (100 : ℚ) := by norm_num [FixedPoint.SCALE]
  have hr : (FixedPoint.from_float f).raw = rhaz (f * 100) := by
    show clamp64 (rhaz (f * ((FixedPoint.SCALE : ℚ)))) = rhaz (f * 100)
    rw [hs]
    exact clamp64_eq_self h1 h2
  refine ⟨hr, ?_⟩
  show (((FixedPoint.from_float f).raw : Int) : ℚ) / ((FixedPoint.SCALE : ℚ)) = _
  rw [hr, hs]

/-- Witness for the amended C8 at a concrete input. -/
theorem from_float_round_spec_witness :
    -(2 ^ 63) ≤ rhaz ((3 / 2 : ℚ) * 100) ∧ rhaz ((3 / 2 : ℚ) * 100) ≤ 2 ^ 63 - 1 ∧
    ((FixedPoint.from_float (3 / 2 : ℚ)).raw = rhaz ((3 / 2 : ℚ) * 100) ∧
     (FixedPoint.from_float (3 / 2 : ℚ)).to_float = ((rhaz ((3 / 2 : ℚ) * 100) : Int) : ℚ) / 100) :=
  ⟨by norm_num [rhaz], by norm_num [rhaz],
   from_float_round_spec (3 / 2) (by norm_num [rhaz]) (by norm_num [rhaz])⟩

/-- C4: serialize-then-parse multiplies order-level raw units by 100: the
derived Serialize writes the raw i64 directly, while deserialization
reads the wire number back as a float and from_float multiplies it by
100 again. -/
theorem roundtrip_scales_raw (r : Int) (h1 : -(2 ^ 53) < r) (h2 : r < 2 ^ 53) :
    deserialize_fixed_point (serialize_fixed_point ⟨r⟩) = some ⟨100 * r⟩ := by
  have e53 : (2 : Int) ^ 53 = 9007199254740992 := by norm_num
  have hb1 : -(2 ^ 63) ≤ r * 100 := by
    have e63 : (2 : Int) ^ 63 = 9223372036854775808 := by norm_num
    rw [e53] at h1
    rw [e63]
    omega
  have hb2 : r * 100 ≤ 2 ^ 63 - 1 := by
    have e63 : (2 : Int) ^ 63 = 9223372036854775808 := by norm_num
    rw [e53] at h2
    rw [e63]
    omega
  show some (FixedPoint.from_float ((r : ℚ))) = some ⟨100 * r⟩
  congr 1
  show (⟨clamp64 (rhaz ((r : ℚ) * ((FixedPoint.SCALE : ℚ))))⟩ : FixedPoint) = ⟨100 * r⟩
  congr 1
  rw [show ((r : ℚ) * ((FixedPoint.SCALE : ℚ))) = ((r * 100 : Int) : ℚ) by
    push_cast [FixedPoint.SCALE]; ring]
  rw [rhaz_intCast]
  rw [clamp64_eq_self hb1 hb2]
  ring

/-- Witness for C4 at a concrete raw value. -/
theorem roundtrip_scales_raw_witness :
    deserialize_fixed_point (serialize_fixed_point ⟨5⟩) = some ⟨100 * 5⟩ :=
  roundtrip_scales_raw 5 (by decide) (by decide)

/-! Helper lemmas about the newest-file fold. -/

theorem newest_step_max (m a : String) : newest_step (some m) a = some (max m a) := by
  show (if m < a then some a else some m) = some (max m a)
  rcases le_or_lt a m with h | h
  · rw [if_neg (not_lt.mpr h), max_eq_left h]
  · rw [if_pos h, max_eq_right h.le]

theorem foldl_newest_step_some (es : List String) (m : String) :
    es.foldl newest_step (some m) = some (es.foldl max m) := by
  induction es generalizing m with
  | nil => rfl
  | cons a es ih =>
    rw [List.foldl_cons, List.foldl_cons, newest_step_max]
    exact ih (max m a)

theorem foldl_max_mem (es : List String) (m : String) : es.foldl max m ∈ m :: es := by
  induction es generalizing m with
  | nil => simp
  | cons a es ih =>
    rw [List.foldl_cons]
    have h := ih (max m a)
    rcases List.mem_cons.mp h with h1 | h1
    · rcases max_choice m a with hm | hm <;> rw [h1, hm]
      · exact List.mem_cons_self _ _
      · exact List.mem_cons_of_mem _ (List.mem_cons_self _ _)
    · exact List.mem_cons_of_mem _ (List.mem_cons_of_mem _ h1)

theorem le_foldl_max (es : List String) (m : String) :
    ∀ x ∈ m :: es, x ≤ es.foldl max m := by
  induction es generalizing m with
  | nil =>
    intro x hx
    rw [List.mem_singleton] at hx
    simp [hx]
  | cons a es ih =>
    intro x hx
    rw [List.foldl_cons]
    rcases List.mem_cons.mp hx with rfl | hx1
    · exact le_trans (le_max_left x a) (ih (max x a) (max x a) (List.mem_cons_self _ _))
    rcases List.mem_cons.mp hx1 with rfl | hx2
    · exact le_trans (le_max_right m x) (ih (max m x) (max m x) (List.mem_cons_self _ _))
    · exact ih (max m a) x (List.mem_cons_of_mem _ hx2)

/-- C1: on every non-empty directory listing, newest_file returns the
lexicographically greatest file name under pure string comparison; in
particular, between the entries 20240101_00000.json and
20240101_86399.json it returns the latter. -/
theorem newest_file_is_lex_max :
    (∀ entries : List String, entries ≠ [] →
      ∃ m, newest_file entries = some m ∧ m ∈ entries ∧ ∀ x ∈ entries, x ≤ m) ∧
    newest_file ["20240101_00000.json", "20240101_86399.json"] =
      some ("20240101_86399.json") := by
  constructor
  · intro entries hne
    match entries with
    | e :: es =>
      refine ⟨es.foldl max e, ?_, foldl_max_mem es e, le_foldl_max es e⟩
      show (e :: es).foldl newest_step none = _
      rw [List.foldl_cons]
      exact foldl_newest_step_some es e
  · show (["20240101_00000.json", "20240101_86399.json"] : List String).foldl newest_step none = _
    rw [List.foldl_cons, List.foldl_cons, List.foldl_nil]
    rw [show newest_step none ("20240101_00000.json") = some ("20240101_00000.json") from rfl]
    rw [newest_step_max]
    congr 1
    apply max_eq_right
    apply le_of_lt
    rw [String.lt_iff_toList_lt]
    decide

/-- Witness for C1 at a concrete listing. -/
theorem newest_file_is_lex_max_witness :
    (["b", "c", "a"] : List String) ≠ [] ∧
    ∃ m, newest_file ["b", "c", "a"] = some m ∧ m ∈ (["b", "c", "a"] : List String) ∧
      ∀ x ∈ (["b", "c", "a"] : List String), x ≤ m :=
  ⟨by decide, newest_file_is_lex_max.1 ["b", "c", "a"] (by decide)⟩

/-! Helper lemmas about decimal rendering and padding. -/

theorem decAux_length_le (fuel : Nat) :
    ∀ n acc k, n < 10 ^ k → n ≤ fuel → (decAux fuel n acc).length ≤ k + acc.length := by
  induction fuel with
  | zero =>
    intro n acc k _ _
    rw [show decAux 0 n acc = acc from rfl]
    omega
  | succ fuel ih =>
    intro n acc k hk hf
    by_cases hn : n = 0
    · rw [show decAux (fuel + 1) n acc = acc by simp [decAux, hn]]
      omega
    · rw [show decAux (fuel + 1) n acc =
          decAux fuel (n / 10) (Nat.digitChar (n % 10) :: acc) by simp [decAux, hn]]
      cases k with
      | zero =>
        exfalso
        have : n = 0 := by omega
        exact hn this
      | succ k =>
        have h1 : n / 10 < 10 ^ k := by
          rw [Nat.div_lt_iff_lt_mul (by norm_num : 0 < 10)]
          calc n < 10 ^ (k + 1) := hk
          _ = 10 ^ k * 10 := pow_succ 10 k
        have h2 : n / 10 ≤ fuel := by
          have : n / 10 < n := Nat.div_lt_self (Nat.pos_of_ne_zero hn) (by norm_num)
          omega
        have h3 := ih (n / 10) (Nat.digitChar (n % 10) :: acc) k h1 h2
        rw [List.length_cons] at h3
        omega

theorem decStr_length_le {n k : Nat} (hk : 1 ≤ k) (hn : n < 10 ^ k) :
    (decStr n).length ≤ k := by
  by_cases h : n = 0
  · subst h
    rw [show decStr 0 = ("0") from rfl]
    exact hk
  · rw [show decStr n = ⟨decAux (n + 1) n []⟩ by simp [decStr, h]]
    rw [String.length_mk]
    have h1 := decAux_length_le (n + 1) n [] k hn (by omega)
    simpa using h1

theorem pad_length (width : Nat) (s : String) (h : s.length ≤ width) :
    (pad width s).length = width := by
  show (String.mk (List.replicate (width - s.length) '0' ++ s.data)).length = width
  rw [String.length_mk, List.length_append, List.length_replicate]
  show width - s.length + s.data.length = width
  have : s.data.length = s.length := rfl
  omega

theorem digitChar_isDigit {d : Nat} (h : d < 10) : (Nat.digitChar d).isDigit = true := by
  have hall : ∀ d : Nat, d < 10 → (Nat.digitChar d).isDigit = true := by decide
  exact hall d h

theorem decAux_digits (fuel : Nat) :
    ∀ n acc, (∀ c ∈ acc, c.isDigit = true) → ∀ c ∈ decAux fuel n acc, c.isDigit = true := by
  induction fuel with
  | zero =>
    intro n acc hacc
    rw [show decAux 0 n acc = acc from rfl]
    exact hacc
  | succ fuel ih =>
    intro n acc hacc
    by_cases hn : n = 0
    · rw [show decAux (fuel + 1) n acc = acc by simp [decAux, hn]]
      exact hacc
    · rw [show decAux (fuel + 1) n acc =
          decAux fuel (n / 10) (Nat.digitChar (n % 10) :: acc) by simp [decAux, hn]]
      apply ih
      intro c hc
      rcases List.mem_cons.mp hc with rfl | hc2
      · exact digitChar_isDigit (Nat.mod_lt n (by norm_num))
      · exact hacc c hc2

theorem decStr_digits (n : Nat) : ∀ c ∈ (decStr n).data, c.isDigit = true := by
  by_cases h : n = 0
  · subst h
    rw [show decStr 0 = ("0") from rfl]
    decide
  · rw [show decStr n = ⟨decAux (n + 1) n []⟩ by simp [decStr, h]]
    exact decAux_digits (n + 1) n [] (by simp)

theorem pad_digits (width : Nat) (s : String) (hs : ∀ c ∈ s.data, c.isDigit = true) :
    ∀ c ∈ (pad width s).data, c.isDigit = true := by
  intro c hc
  rw [show (pad width s).data = List.replicate (width - s.length) '0' ++ s.data from rfl] at hc
  rcases List.mem_append.mp hc with h | h
  · rw [List.eq_of_mem_replicate h]
    decide
  · exact hs c h

/-- C2: for every valid local clock reading, the snapshot path is the raw
directory prefix, then the 8-digit local date immediately followed by
the zero-padded 5-digit count of seconds elapsed since local midnight (a
value of at most 86399) and the .json extension, with no separator
between date and seconds; both components consist of decimal digits
only. -/
theorem snapshot_filename_spec (t : LocalTime)
    (hy : t.year ≤ 9999) (hmo : t.month ≤ 12) (hd : t.day ≤ 31)
    (hh : t.hour < 24) (hmi : t.minute < 60) (hs : t.second < 60) :
    seconds_from_midnight t ≤ 86399 ∧
    snapshot_filename t =
      "raw/" ++ (date_str t ++ (pad 5 (decStr (seconds_from_midnight t)) ++ ".json")) ∧
    (date_str t).length = 8 ∧
    (pad 5 (decStr (seconds_from_midnight t))).length = 5 ∧
    (∀ c ∈ (date_str t).data, c.isDigit = true) ∧
    (∀ c ∈ (pad 5 (decStr (seconds_from_midnight t))).data, c.isDigit = true) := by
  have hsec : seconds_from_midnight t ≤ 86399 := by
    unfold seconds_from_midnight
    omega
  refine ⟨hsec, ?_, ?_, ?_, ?_, ?_⟩
  · unfold snapshot_filename
    rw [String.append_assoc, String.append_assoc]
  · unfold date_str
    rw [String.length_append, String.length_append]
    rw [pad_length 4 _ (decStr_length_le (by norm_num)
      (Nat.lt_of_le_of_lt hy (by norm_num : (9999 : Nat) < 10 ^ 4)))]
    rw [pad_length 2 _ (decStr_length_le (by norm_num)
      (Nat.lt_of_le_of_lt hmo (by norm_num : (12 : Nat) < 10 ^ 2)))]
    rw [pad_length 2 _ (decStr_length_le (by norm_num)
      (Nat.lt_of_le_of_lt hd (by norm_num : (31 : Nat) < 10 ^ 2)))]
  · exact pad_length 5 _ (decStr_length_le (by norm_num)
      (Nat.lt_of_le_of_lt hsec (by norm_num : (86399 : Nat) < 10 ^ 5)))
  · unfold date_str
    intro c hc
    rw [String.data_append, String.data_append] at hc
    rcases List.mem_append.mp hc with h | h
    · rcases List.mem_append.mp h with h2 | h2
      · exact pad_digits 4 _ (decStr_digits _) c h2
      · exact pad_digits 2 _ (decStr_digits _) c h2
    · exact pad_digits 2 _ (decStr_digits _) c h
  · exact pad_digits 5 _ (decStr_digits _)

/-- Witness for C2 at a concrete clock reading. -/
theorem snapshot_filename_spec_witness :
    seconds_from_midnight ⟨2024, 1, 1, 12, 30, 45⟩ ≤ 86399 ∧
    snapshot_filename ⟨2024, 1, 1, 12, 30, 45⟩ =
      "raw/" ++ (date_str ⟨2024, 1, 1, 12, 30, 45⟩ ++
        (pad 5 (decStr (seconds_from_midnight ⟨2024, 1, 1, 12, 30, 45⟩)) ++ ".json")) ∧
    (date_str ⟨2024, 1, 1, 12, 30, 45⟩).length = 8 ∧
    (pad 5 (decStr (seconds_from_midnight ⟨2024, 1, 1, 12, 30, 45⟩))).length = 5 ∧
    (∀ c ∈ (date_str ⟨2024, 1, 1, 12, 30, 45⟩).data, c.isDigit = true) ∧
    (∀ c ∈ (pad 5 (decStr (seconds_from_midnight ⟨2024, 1, 1, 12, 30, 45⟩))).data,
      c.isDigit = true) :=
  snapshot_filename_spec ⟨2024, 1, 1, 12, 30, 45⟩
    (by decide) (by decide) (by decide) (by decide) (by decide) (by decide)

/-! Helper lemma: newest_file returns none exactly on the empty listing. -/

theorem newest_file_eq_none_iff (entries : List String) :
    newest_file entries = none ↔ entries = [] := by
  constructor
  · intro h
    match entries with
    | [] => rfl
    | e :: es =>
      exfalso
      have h2 : newest_file (e :: es) = some (es.foldl max e) := by
        show (e :: es).foldl newest_step none = _
        rw [List.foldl_cons]
        exact foldl_newest_step_some es e
      rw [h2] at h
      exact Option.noConfusion h
  · rintro rfl
    rfl

/-- C9: the snapshot load path fails with NotFound exactly when the
snapshot directory is absent or its listing is empty; a nonempty listing
yields either a parsed snapshot or a different error kind. -/
theorem loadNewest_notFound_iff :
    ∀ dir : Option (List (String × Json)),
      loadNewest dir = .error .notFound ↔ (dir = none ∨ dir = some []) := by
  intro dir
  match dir with
  | none => simp [loadNewest]
  | some [] => simp [loadNewest, newest_file]
  | some (e :: es) =>
    have hnf : newest_file ((e :: es).map Prod.fst) =
        some ((es.map Prod.fst).foldl max e.1) := by
      rw [List.map_cons]
      show ((es.map Prod.fst).foldl newest_step (newest_step none e.1)) = _
      exact foldl_newest_step_some (es.map Prod.fst) e.1
    have hmem : ((es.map Prod.fst).foldl max e.1) ∈ e.1 :: es.map Prod.fst :=
      foldl_max_mem _ _
    have hmem2 : ((es.map Prod.fst).foldl max e.1) ∈ (e :: es).map Prod.fst := by
      rw [List.map_cons]
      exact hmem
    obtain ⟨entry, hin, heq⟩ := List.mem_map.mp hmem2
    have hfind : ((e :: es).find? (fun en => en.1 == (es.map Prod.fst).foldl max e.1)).isSome := by
      rw [List.find?_isSome]
      exact ⟨entry, hin, by simp [heq]⟩
    obtain ⟨found, hfe⟩ := Option.isSome_iff_exists.mp hfind
    have hload : loadNewest (some (e :: es)) =
        match parseBazaarResponse found.2 with
        | none => Except.error StoreError.schemaError
        | some response => Except.ok response := by
      show (match newest_file ((e :: es).map Prod.fst) with
            | none => Except.error StoreError.notFound
            | some name =>
              match (e :: es).find? (fun (en : String × Json) => en.1 == name) with
              | none => Except.error StoreError.ioError
              | some entry =>
                match parseBazaarResponse entry.2 with
                | none => Except.error StoreError.schemaError
                | some response => Except.ok response) = _
      rw [hnf]
      show (match (e :: es).find?
              (fun (en : String × Json) => en.1 == (es.map Prod.fst).foldl max e.1) with
            | none => Except.error StoreError.ioError
            | some entry =>
              match parseBazaarResponse entry.2 with
              | none => Except.error StoreError.schemaError
              | some response => Except.ok response) = _
      rw [hfe]
    rw [hload]
    rcases hp : parseBazaarResponse found.2 with _ | resp <;> simp

/-- Witness for C9 at a concrete directory state. -/
theorem loadNewest_notFound_iff_witness :
    loadNewest none = .error .notFound :=
  (loadNewest_notFound_iff none).mpr (Or.inl rfl)

/-! Helper lemma: the row-emitting fold of generate_csv appends one row
per product after the initial rows. -/

theorem foldl_emit_rows (fts : ℚ → String) (products : List (String × Product)) :
    ∀ init : List (List String),
      products.foldl (fun rows entry => rows ++ [productRow fts entry.2]) init =
        init ++ products.map (fun entry => productRow fts entry.2) := by
  induction products with
  | nil =>
    intro init
    simp
  | cons p ps ih =>
    intro init
    rw [List.foldl_cons, List.map_cons, ih (init ++ [productRow fts p.2])]
    rw [List.append_assoc]
    rfl

/-- C3: the exported CSV is the metadata row (the literal last_updated
cell, the decimal rendering of the feed timestamp, then five empty
cells, 7 columns in total), then the fixed header row, then exactly one
row per product whose cells are the product id followed by the six
quick-status numbers in the documented column order, stringified by the
host conversions. -/
theorem generate_csv_shape (fts : ℚ → String) (response : BazaarResponse) :
    (generate_csv fts response).length = 2 + response.products.length ∧
    (generate_csv fts response)[0]? =
      some ["last_updated", decStr response.lastUpdated, "", "", "", "", ""] ∧
    (generate_csv fts response)[1]? =
      some ["product_id", "sell_price", "sell_volume", "buy_price", "buy_volume",
            "sell_orders", "buy_orders"] ∧
    ∀ i, (hi : i < response.products.length) →
      (generate_csv fts response)[2 + i]? =
        some [(response.products[i]).2.product_id,
              fts (response.products[i]).2.quick_status.sellPrice,
              decStr (response.products[i]).2.quick_status.sellVolume,
              fts (response.products[i]).2.quick_status.buyPrice,
              decStr (response.products[i]).2.quick_status.buyVolume,
              decStr (response.products[i]).2.quick_status.sellOrders,
              decStr (response.products[i]).2.quick_status.buyOrders] := by
  have hfold : generate_csv fts response =
      [metaRow response, headerRow] ++
        response.products.map (fun entry => productRow fts entry.2) :=
    foldl_emit_rows fts response.products _
  refine ⟨?_, ?_, ?_, ?_⟩
  · rw [hfold, List.length_append, List.length_map]
    rfl
  · rw [hfold]
    simp [metaRow]
  · rw [hfold]
    simp [headerRow]
  · intro i hi
    rw [hfold]
    rw [List.getElem?_append_right (by simp : ([metaRow response, headerRow]).length ≤ 2 + i)]
    have hidx : 2 + i - ([metaRow response, headerRow]).length = i := by simp
    rw [hidx, List.getElem?_map, List.getElem?_eq_getElem hi]
    rfl

/-- Witness for C3 at the end-to-end sample of the specification. -/
theorem generate_csv_shape_witness :
    0 < sampleResponse.products.length ∧
    (generate_csv sampleFts sampleResponse)[2 + 0]? =
      some [(sampleResponse.products[0]).2.product_id,
            sampleFts (sampleResponse.products[0]).2.quick_status.sellPrice,
            decStr (sampleResponse.products[0]).2.quick_status.sellVolume,
            sampleFts (sampleResponse.products[0]).2.quick_status.buyPrice,
            decStr (sampleResponse.products[0]).2.quick_status.buyVolume,
            decStr (sampleResponse.products[0]).2.quick_status.sellOrders,
            decStr (sampleResponse.products[0]).2.quick_status.buyOrders] :=
  ⟨by decide, (generate_csv_shape sampleFts sampleResponse).2.2.2 0 (by decide)⟩

/-- C10: parsing an untyped payload into the catalog model succeeds
exactly when the payload is an object carrying every declared field with
the right shape, for each of the four declared structs; thus absence or
wrong shape of any listed field makes the parse fail (a SchemaError in
the pipeline), every listed field is required, and the parsed values are
exactly the wire values, with no normalization, clamping or range
validation (only the order-level unit price goes through the documented
float conversion). -/
theorem parse_required_exact :
    (∀ (j : Json) (o : Order), parseOrder j = some o ↔ ∃ fields, j = .obj fields ∧
      ((fields.lookup ("amount")).bind asU64 = some o.amount ∧
       (fields.lookup ("pricePerUnit")).bind deserialize_fixed_point = some o.pricePerUnit ∧
       (fields.lookup ("orders")).bind asU32 = some o.orders)) ∧
    (∀ (j : Json) (q : QuickStatus), parseQuickStatus j = some q ↔ ∃ fields, j = .obj fields ∧
      ((fields.lookup ("productId")).bind asStr = some q.productId ∧
       (fields.lookup ("sellPrice")).bind asF64 = some q.sellPrice ∧
       (fields.lookup ("sellVolume")).bind asU64 = some q.sellVolume ∧
       (fields.lookup ("sellMovingWeek")).bind asU64 = some q.sellMovingWeek ∧
       (fields.lookup ("sellOrders")).bind asU32 = some q.sellOrders ∧
       (fields.lookup ("buyPrice")).bind asF64 = some q.buyPrice ∧
       (fields.lookup ("buyVolume")).bind asU64 = some q.buyVolume ∧
       (fields.lookup ("buyMovingWeek")).bind asU64 = some q.buyMovingWeek ∧
       (fields.lookup ("buyOrders")).bind asU32 = some q.buyOrders)) ∧
    (∀ (j : Json) (p : Product), parseProduct j = some p ↔ ∃ fields, j = .obj fields ∧
      ((fields.lookup ("product_id")).bind asStr = some p.product_id ∧
       ((fields.lookup ("sell_summary")).bind asArr).bind
         (fun items => items.mapM parseOrder) = some p.sell_summary ∧
       ((fields.lookup ("buy_summary")).bind asArr).bind
         (fun items => items.mapM parseOrder) = some p.buy_summary ∧
       (fields.lookup ("quick_status")).bind parseQuickStatus = some p.quick_status)) ∧
    (∀ (j : Json) (r : BazaarResponse), parseBazaarResponse j = some r ↔
      ∃ fields, j = .obj fields ∧
      ((fields.lookup ("success")).bind asBool = some r.success ∧
       (fields.lookup ("lastUpdated")).bind asU64 = some r.lastUpdated ∧
       ((fields.lookup ("products")).bind asObj).bind
         (fun productsJson => productsJson.mapM
           (fun kv => (parseProduct kv.2).map (fun p => (kv.1, p)))) = some r.products)) := by
  refine ⟨?_, ?_, ?_, ?_⟩
  · intro j o
    constructor
    · intro h
      cases j <;> simp only [parseOrder] at h <;> try exact Option.noConfusion h
      case obj fields =>
        refine ⟨fields, rfl, ?_⟩
        simp only [Option.bind_eq_bind, Option.bind_eq_some, Option.pure_def,
          Option.some.injEq] at h
        obtain ⟨a, ha, b, hb, c, hc, ho⟩ := h
        subst ho
        exact ⟨Option.bind_eq_some.mpr ha, Option.bind_eq_some.mpr hb,
          Option.bind_eq_some.mpr hc⟩
    · rintro ⟨fields, rfl, h1, h2, h3⟩
      simp only [parseOrder, Option.bind_eq_bind, h1, h2, h3, Option.some_bind]
      rfl
  · intro j q
    constructor
    · intro h
      cases j <;> simp only [parseQuickStatus] at h <;> try exact Option.noConfusion h
      case obj fields =>
        refine ⟨fields, rfl, ?_⟩
        simp only [Option.bind_eq_bind, Option.bind_eq_some, Option.pure_def,
          Option.some.injEq] at h
        obtain ⟨a1, h1, a2, h2, a3, h3, a4, h4, a5, h5, a6, h6, a7, h7, a8, h8, a9, h9, hq⟩ := h
        subst hq
        exact ⟨Option.bind_eq_some.mpr h1, Option.bind_eq_some.mpr h2,
          Option.bind_eq_some.mpr h3, Option.bind_eq_some.mpr h4,
          Option.bind_eq_some.mpr h5, Option.bind_eq_some.mpr h6,
          Option.bind_eq_some.mpr h7, Option.bind_eq_some.mpr h8,
          Option.bind_eq_some.mpr h9⟩
    · rintro ⟨fields, rfl, h1, h2, h3, h4, h5, h6, h7, h8, h9⟩
      simp only [parseQuickStatus, Option.bind_eq_bind, h1, h2, h3, h4, h5, h6, h7, h8, h9,
        Option.some_bind]
      rfl
  · intro j p
    constructor
    · intro h
      cases j <;> simp only [parseProduct] at h <;> try exact Option.noConfusion h
      case obj fields =>
        refine ⟨fields, rfl, ?_⟩
        simp only [Option.bind_eq_bind, Option.bind_eq_some, Option.pure_def,
          Option.some.injEq] at h
        obtain ⟨pid, hpid, sitems, hsit, ss, hss, bitems, hbit, bs, hbs, qs, hqs, hp⟩ := h
        subst hp
        exact ⟨Option.bind_eq_some.mpr hpid,
          Option.bind_eq_some.mpr ⟨sitems, Option.bind_eq_some.mpr hsit, hss⟩,
          Option.bind_eq_some.mpr ⟨bitems, Option.bind_eq_some.mpr hbit, hbs⟩,
          Option.bind_eq_some.mpr hqs⟩
    · rintro ⟨fields, rfl, h1, h2, h3, h4⟩
      obtain ⟨sitems, hsit, hsmap⟩ := Option.bind_eq_some.mp h2
      obtain ⟨bitems, hbit, hbmap⟩ := Option.bind_eq_some.mp h3
      simp only [parseProduct, Option.bind_eq_bind, h1, hsit, hsmap, hbit, hbmap, h4,
        Option.some_bind]
      rfl
  · intro j r
    constructor
    · intro h
      cases j <;> simp only [parseBazaarResponse] at h <;> try exact Option.noConfusion h
      case obj fields =>
        refine ⟨fields, rfl, ?_⟩
        simp only [Option.bind_eq_bind, Option.bind_eq_some, Option.pure_def,
          Option.some.injEq] at h
        obtain ⟨su, hsu, lu, hlu, pj, hpj, ps, hps, hr⟩ := h
        subst hr
        exact ⟨Option.bind_eq_some.mpr hsu, Option.bind_eq_some.mpr hlu,
          Option.bind_eq_some.mpr ⟨pj, Option.bind_eq_some.mpr hpj, hps⟩⟩
    · rintro ⟨fields, rfl, h1, h2, h3⟩
      obtain ⟨pj, hpj, hmap⟩ := Option.bind_eq_some.mp h3
      simp only [parseBazaarResponse, Option.bind_eq_bind, h1, h2, hpj, hmap, Option.some_bind]
      rfl

/-- Witness for C10 at a concrete order payload with every field present. -/
theorem parse_required_exact_witness :
    parseOrder sampleOrderJson = some ⟨5, FixedPoint.from_float (21 / 10), 2⟩ :=
  (parse_required_exact.1 sampleOrderJson ⟨5, FixedPoint.from_float (21 / 10), 2⟩).mpr
    ⟨[("amount", .intNum 5), ("pricePerUnit", .floatNum (21 / 10)), ("orders", .intNum 2)],
     rfl, rfl, rfl, rfl⟩

end Bazaar
